import Mathlib

/-!
Verification of the JSONC (JSON with comments) streaming tokenizer and
deserializer of this repository. The Rust sources under `src/` are shallowly
embedded: byte streams become lists of `Except`-wrapped bytes, stateful
cursors become explicit state passing over those lists, machine integers
(`usize` positions, `u8` bytes, the `u32` hex accumulator) become `Nat`
(none of the arithmetic here can overflow: positions only grow by one per
input byte and the hex accumulator is bounded by `0xFFFF`), and fallible
Rust functions returning `crate::Result` become Lean functions returning
`Except Error`.
-/

namespace Jwc

/-- Source position `(row, column)`, zero-based (`src/de/position.rs`,
`type Position = (usize, usize)`, modelled from its usage in
`src/de/token.rs`). -/
abbrev Position : Type := Nat × Nat

/-- A pair of positions delimiting a token (`src/de/position.rs`,
`type PosRange = (Position, Position)`). -/
abbrev PosRange : Type := Position × Position

/-- One item of the underlying byte source: `io::Result<u8>` from
`io::Bytes<R>`; the I/O error payload is abstracted to its message string
(the code only ever uses `e.to_string()`). -/
abbrev ByteItem : Type := Except String Nat

namespace RowColIterator

/-- The position update performed by `RowColIterator::next`
(`src/de/token.rs` lines 165-178): after yielding an item the iterator
increments `row` and zeroes `col` on an `Ok(b'\n')` byte, increments `col`
on any other `Ok` byte, and leaves both unchanged on an `Err` item. -/
def nextPos : Position → ByteItem → Position
  | (r, c), Except.ok b => if b = 10 then (r + 1, 0) else (r, c + 1)
  | p, Except.error _ => p

end RowColIterator

/-- The full output of `RowColIterator` (`src/de/token.rs` lines 145-179)
run from state `p` over the remaining items of the wrapped iterator: each
item is annotated with the position captured *before* the state update
(`let pos = self.pos();` precedes the `match`). -/
def rowColIter : Position → List ByteItem → List (Position × ByteItem)
  | _, [] => []
  | p, it :: rest => (p, it) :: rowColIter (RowColIterator.nextPos p it) rest

/-- Lexicographic order on positions: the sense in which positions "never
decrease" within one parse. -/
def posLe (a b : Position) : Prop := a.1 < b.1 ∨ (a.1 = b.1 ∧ a.2 ≤ b.2)

theorem rowColIter_length (p : Position) (items : List ByteItem) :
    (rowColIter p items).length = items.length := by
  induction items generalizing p with
  | nil => rfl
  | cons it rest ih => simp [rowColIter, ih]

theorem rowColIter_get_succ (items : List ByteItem) (p : Position) (i : Nat)
    (h1 : i < (rowColIter p items).length)
    (h2 : i + 1 < (rowColIter p items).length) :
    ((rowColIter p items).get ⟨i + 1, h2⟩).1 =
      RowColIterator.nextPos ((rowColIter p items).get ⟨i, h1⟩).1
        ((rowColIter p items).get ⟨i, h1⟩).2 := by
  induction items generalizing p i with
  | nil => simp [rowColIter] at h1
  | cons it rest ih =>
    cases i with
    | zero =>
      cases rest with
      | nil => simp [rowColIter] at h2
      | cons it2 rest2 => simp [rowColIter]
    | succ j =>
      simp only [rowColIter, List.get_cons_succ]
      exact ih (RowColIterator.nextPos p it) j _ _

theorem nextPos_posLe (p : Position) (it : ByteItem) :
    posLe p (RowColIterator.nextPos p it) := by
  rcases p with ⟨r, c⟩
  rcases it with e | b
  · exact Or.inr ⟨rfl, Nat.le_refl c⟩
  · by_cases hb : b = 10
    · subst hb
      simp only [RowColIterator.nextPos, if_pos rfl]
      exact Or.inl (Nat.lt_succ_self r)
    · simp only [RowColIterator.nextPos, if_neg hb]
      exact Or.inr ⟨rfl, Nat.le_succ c⟩

/-- C4: every item yielded by the position tracker carries the position
assigned before the byte is consumed (the head of a run from state `(0,0)`
is annotated `(0,0)`: positions start there); after a line-feed byte
(`0x0A`) yielded at `(R, C)` the next item's position is `(R+1, 0)`; after
any other byte at `(R, C)` it is `(R, C+1)`; and positions never decrease
(lexicographically) between consecutive items. -/
theorem rowColIter_position_spec :
    (∀ it rest, (rowColIter ((0, 0) : Position) (it :: rest)).get
        ⟨0, by simp [rowColIter]⟩ = ((0, 0), it))
    ∧ (∀ items i R C b
        (h1 : i < (rowColIter ((0, 0) : Position) items).length)
        (h2 : i + 1 < (rowColIter ((0, 0) : Position) items).length),
        (rowColIter ((0, 0) : Position) items).get ⟨i, h1⟩ = ((R, C), Except.ok b) →
        ((rowColIter ((0, 0) : Position) items).get ⟨i + 1, h2⟩).1 =
          if b = 10 then (R + 1, 0) else (R, C + 1))
    ∧ (∀ items i
        (h1 : i < (rowColIter ((0, 0) : Position) items).length)
        (h2 : i + 1 < (rowColIter ((0, 0) : Position) items).length),
        posLe ((rowColIter ((0, 0) : Position) items).get ⟨i, h1⟩).1
          ((rowColIter ((0, 0) : Position) items).get ⟨i + 1, h2⟩).1) := by
  refine ⟨fun it rest => rfl, ?_, ?_⟩
  · intro items i R C b h1 h2 hget
    rw [rowColIter_get_succ items (0, 0) i h1 h2, hget]
    rfl
  · intro items i h1 h2
    rw [rowColIter_get_succ items (0, 0) i h1 h2]
    exact nextPos_posLe _ _

/-- Witness for C4 at a concrete input: consuming the line-feed byte yielded
at `(0, 0)` makes the next item's position `(1, 0)`. -/
theorem rowColIter_position_spec_witness :
    ((rowColIter ((0, 0) : Position) [Except.ok 10, Except.ok 65]).get
        ⟨1, by simp [rowColIter]⟩).1 = (1, 0) := by
  have h := rowColIter_position_spec.2.1 [Except.ok 10, Except.ok 65] 0 0 0 10
    (by simp [rowColIter]) (by simp [rowColIter]) rfl
  simpa using h

/-- C10: when the underlying read yields an I/O error, the position tracker
yields that error annotated with the current position and leaves row and
column unchanged, so the item following the error item is reported at the
same position the error item carried, and the sequence is not terminated by
the error (every input item still yields exactly one output item). -/
theorem rowColIter_io_error_spec :
    (∀ p e rest, rowColIter p (Except.error e :: rest) =
        (p, Except.error e) :: rowColIter p rest)
    ∧ (∀ p e it rest, (rowColIter p (Except.error e :: it :: rest)).get
        ⟨1, by simp [rowColIter]⟩ = (p, it))
    ∧ (∀ p items, (rowColIter p items).length = items.length) := by
  refine ⟨?_, ?_, fun p items => rowColIter_length p items⟩
  · intro p e rest
    show (p, Except.error e) :: rowColIter (RowColIterator.nextPos p (Except.error e)) rest =
      (p, Except.error e) :: rowColIter p rest
    rfl
  · intro p e it rest
    show (rowColIter (RowColIterator.nextPos p (Except.error e)) (it :: rest)).get
      ⟨0, by simp [rowColIter]⟩ = (p, it)
    rfl

/-- The syntax-error taxonomy. Modelled from the spec: the `src/error.rs`
snapshot in this repository predates the tokenizer/deserializer code and
declares only two of the variants those files construct; the remaining
variants are reconstructed here from their construction sites in
`src/de/token.rs` and `src/de.rs` and from the spec's error taxonomy (§7):
each variant carries the `Position` (or `PosRange`) of the offending token
and, where relevant, the byte or identifier actually found. -/
inductive SyntaxError : Type where
  | eofWhileParsingIdent
  | unexpectedIdent (pos : PosRange) (expected found : List Nat)
  | eofWhileStartParsingString
  | eofWhileEndParsingString
  | unexpectedTokenWhileStartParsingString (pos : Position) (found : Nat)
  | unexpectedTokenWhileEndParsingString (pos : Position) (found : Nat)
  | controlCharacterWhileParsingString (pos : Position) (c : Nat)
  | eofWhileParsingEscapeSequence
  | unexpectedTokenWhileStartParsingEscapeSequence (pos : Position) (found : Nat)
  | invalidEscapeSequence (pos : Position) (found : Nat)
  | invalidUnicodeEscape (pos : Position) (found : Nat)
  | eofWhileStartParsingValue
  | unexpectedTokenWhileParsingValue (pos : Position) (found : Nat)
  | eofWhileStartParsingBool
  | unexpectedTokenWhileParsingBool (pos : Position) (found : Nat)
  | eofWhileStartParsingNull
  | unexpectedTokenWhileParsingNull (pos : Position) (found : Nat)
  | eofWhileStartParsingArray
  | eofWhileEndParsingArray
  | unexpectedTokenWhileStartParsingArray (pos : Position) (found : Nat)
  | unexpectedTokenWhileEndParsingArray (pos : Position) (found : Nat)
  | unexpectedTokenWhileParsingArrayValue (pos : Position) (found : Nat)
  | eofWhileStartParsingObject
  | eofWhileEndParsingObject
  | unexpectedTokenWhileStartParsingObject (pos : Position) (found : Nat)
  | unexpectedTokenWhileEndParsingObject (pos : Position) (found : Nat)
  | eofWhileParsingObjectKey
  | unexpectedTokenWhileParsingObjectKey (pos : Position) (found : Nat)
  | eofWhileParsingObjectValue
  | unexpectedTokenWhileStartParsingObjectValue (pos : Position) (found : Nat)
  | unexpectedTokenWhileEndParsingObjectValue (pos : Position) (found : Nat)
  | eofWhileStartParsingEnum
  | eofWhileEndParsingEnum
  | unexpectedTokenWhileStartParsingEnum (pos : Position) (found : Nat)
  | unexpectedTokenWhileEndParsingEnum (pos : Position) (found : Nat)
  | unexpectedTokenWhileStartParsingEnumValue (pos : Position) (found : Nat)
  | expectedEof (pos : Position) (found : Nat)
  | eofWhileStartParsingNumber
  | invalidNumber (pos : Position) (found : Nat)
  deriving DecidableEq, Repr

/-- The crate-level error (`crate::Error` / `JsonWithCommentError`): an
opaque box around either an I/O error message (`crate::Error::new(e.to_string())`),
a `SyntaxError`, or a `NeverFail`/`Ensure` internal invariant error.
Two extra constructors mark source behaviors that are not ordinary returned
errors: `panicTodo` marks the `todo!()` macro (a process abort, not a
returned value) and `undefinedBehavior` marks a violated `unsafe`
precondition (the source has no defined behavior at all there).
`fuelExhausted` is an artifact of the embedding: loops of the source are
given explicit fuel, and every theorem below either supplies fuel exceeding
the input length (which the loops, consuming at least one byte per
iteration, can never exhaust) or holds for arbitrary positive fuel. -/
inductive Error : Type where
  | ioErr (msg : String)
  | syn (e : SyntaxError)
  | ensureEatAfterFind
  | panicTodo
  | undefinedBehavior (codepoint : Nat)
  | fuelExhausted
  deriving DecidableEq, Repr

/-- Tokenizer state: the remaining position-annotated stream. The Rust
`Tokenizer` owns `Peekable<RowColIterator<io::Bytes<R>>>`; `Peekable`'s
one-item buffer is observationally just the head of this list. -/
abbrev Tok : Type := List (Position × ByteItem)

/-- `Tokenizer::new`: wrap a byte source in a `RowColIterator` starting at
row 0, column 0. -/
def Tokenizer.new (bytes : List ByteItem) : Tok := rowColIter (0, 0) bytes

/-- Build a tokenizer over a plain (error-free) byte list. -/
def tokenize (bytes : List Nat) : Tok := Tokenizer.new (bytes.map Except.ok)

/-- `Tokenizer::eat` (`src/de/token.rs` lines 25-31): pop the next item;
an `Ok` byte is returned with its position, an I/O error item aborts with a
boxed error (the item having been consumed), end of input gives `None`. -/
def eat : Tok → Except Error (Option (Position × Nat) × Tok)
  | [] => Except.ok (none, [])
  | (p, Except.ok c) :: rest => Except.ok (some (p, c), rest)
  | (_, Except.error e) :: _ => Except.error (Error.ioErr e)

/-- `Tokenizer::find` (`src/de/token.rs` lines 33-39): peek the next item
without consuming it. -/
def find : Tok → Except Error (Option (Position × Nat))
  | [] => Except.ok none
  | (p, Except.ok c) :: _ => Except.ok (some (p, c))
  | (_, Except.error e) :: _ => Except.error (Error.ioErr e)

/-- `u8::is_ascii_whitespace`: space, horizontal tab, line feed, form feed,
carriage return. -/
def isAsciiWhitespace (c : Nat) : Bool :=
  c = 0x20 || c = 0x09 || c = 0x0A || c = 0x0C || c = 0x0D

/-- `u8::is_ascii_control`: `0x00..=0x1F` and `0x7F`. -/
def isAsciiControl (c : Nat) : Bool := c < 0x20 || c = 0x7F

/-- `u8::is_ascii_alphanumeric`. -/
def isAsciiAlphanumeric (c : Nat) : Bool :=
  (48 ≤ c && c ≤ 57) || (65 ≤ c && c ≤ 90) || (97 ≤ c && c ≤ 122)

/-- `Tokenizer::eat_whitespace` (`src/de/token.rs` lines 41-48): repeatedly
`eat` while the byte is ASCII whitespace; the first non-whitespace byte is
returned *consumed*. -/
def eat_whitespace : Tok → Except Error (Option (Position × Nat) × Tok)
  | [] => Except.ok (none, [])
  | (_, Except.error e) :: _ => Except.error (Error.ioErr e)
  | (p, Except.ok c) :: rest =>
    if isAsciiWhitespace c then eat_whitespace rest
    else Except.ok (some (p, c), rest)

/-- `Tokenizer::skip_whitespace` (`src/de/token.rs` lines 50-59): like
`eat_whitespace` but non-destructive at the end: the first non-whitespace
byte is returned still at the head of the stream. -/
def skip_whitespace : Tok → Except Error (Option (Position × Nat) × Tok)
  | [] => Except.ok (none, [])
  | (_, Except.error e) :: _ => Except.error (Error.ioErr e)
  | (p, Except.ok c) :: rest =>
    if isAsciiWhitespace c then skip_whitespace rest
    else Except.ok (some (p, c), (p, Except.ok c) :: rest)

/-- The loop of `Tokenizer::fold_token` (`src/de/token.rs` lines 64-71):
greedily consume while the predicate holds of the accumulated buffer and the
next byte, extending the range end to each eaten byte's position. -/
def fold_token_loop (f : List Nat → Nat → Bool) :
    Tok → Position → Position → List Nat → Except Error ((PosRange × List Nat) × Tok)
  | [], start, endp, buff => Except.ok (((start, endp), buff), [])
  | (_, Except.error e) :: _, _, _, _ => Except.error (Error.ioErr e)
  | (p, Except.ok c) :: rest, start, endp, buff =>
    if f buff c then fold_token_loop f rest start p (buff ++ [c])
    else Except.ok (((start, endp), buff), (p, Except.ok c) :: rest)

/-- `Tokenizer::fold_token` (`src/de/token.rs` lines 61-73): skip leading
whitespace (EOF here is an `EofWhileParsingIdent` error), then run the
greedy fold from the first significant byte's position. -/
def fold_token (f : List Nat → Nat → Bool) (t : Tok) :
    Except Error ((PosRange × List Nat) × Tok) :=
  match skip_whitespace t with
  | Except.error e => Except.error e
  | Except.ok (none, _) => Except.error (Error.syn SyntaxError.eofWhileParsingIdent)
  | Except.ok (some (start, _), t1) => fold_token_loop f t1 start start []

/-- `Tokenizer::parse_ident` (`src/de/token.rs` lines 75-84): fold an
alphanumeric-or-expected-byte run capped at 10 bytes; succeed with `value`
iff the folded bytes equal `ident` exactly. -/
def parse_ident {α : Type} (ident : List Nat) (value : α) (t : Tok) :
    Except Error (α × Tok) :=
  match fold_token
      (fun b c => b.length < 10 && (isAsciiAlphanumeric c || ident.contains c)) t with
  | Except.error e => Except.error e
  | Except.ok ((pos, parsed), t1) =>
    if parsed = ident then Except.ok (value, t1)
    else Except.error (Error.syn (SyntaxError.unexpectedIdent pos ident parsed))

/-- Hex digit classification of `Tokenizer::parse_unicode`
(`src/de/token.rs` lines 134-136): `0-9`, `a-f`, `A-F`. -/
def hexDigitVal (c : Nat) : Option Nat :=
  if 48 ≤ c && c ≤ 57 then some (c - 48)
  else if 97 ≤ c && c ≤ 102 then some (c - 97 + 10)
  else if 65 ≤ c && c ≤ 70 then some (c - 65 + 10)
  else none

/-- Unicode scalar values: exactly the values for which
`char::from_u32(n)` is `Some`, i.e. below `0x110000` and outside the
surrogate range `0xD800..=0xDFFF`. -/
def isUnicodeScalar (n : Nat) : Bool :=
  n < 0xD800 || (0xE000 ≤ n && n < 0x110000)

/-- Standard UTF-8 encoding of a scalar value (1 to 4 bytes); what
`char::encode_utf8` produces on a valid `char`. -/
def utf8Bytes (n : Nat) : List Nat :=
  if n < 0x80 then [n]
  else if n < 0x800 then [0xC0 + n / 64, 0x80 + n % 64]
  else if n < 0x10000 then [0xE0 + n / 4096, 0x80 + (n / 64) % 64, 0x80 + n % 64]
  else [0xF0 + n / 262144, 0x80 + (n / 4096) % 64, 0x80 + (n / 64) % 64, 0x80 + n % 64]

/-- Models `unsafe { char::from_u32_unchecked(n) }` followed by
`char::encode_utf8` (`src/de/token.rs` lines 140-141): defined exactly when
`n` is a Unicode scalar value. For any other `n` (the surrogate range —
`parse_unicode`'s accumulator is at most `0xFFFF`) the call violates
`from_u32_unchecked`'s safety precondition and the source program has
undefined behavior, marked here by `none`. -/
def from_u32_unchecked_utf8 (n : Nat) : Option (List Nat) :=
  if isUnicodeScalar n then some (utf8Bytes n) else none

/-- The 4-iteration accumulation loop of `Tokenizer::parse_unicode`
(`src/de/token.rs` lines 132-139), with `n` digits still to read (loop
index `i = 4 - n`, so the shift `(3 - i) * 4` bits is the factor `16 ^ (n - 1)`):
each byte must be a hex digit, else an `InvalidUnicodeEscape` error carrying
that byte and its position. -/
def parse_unicode_loop : Nat → Nat → Tok → Except Error (Nat × Tok)
  | 0, hex, t => Except.ok (hex, t)
  | n + 1, hex, t =>
    match eat t with
    | Except.error e => Except.error e
    | Except.ok (none, _) => Except.error (Error.syn SyntaxError.eofWhileParsingEscapeSequence)
    | Except.ok (some (p, c), t1) =>
      match hexDigitVal c with
      | some d => parse_unicode_loop n (hex + d * 16 ^ n) t1
      | none => Except.error (Error.syn (SyntaxError.invalidUnicodeEscape p c))

/-- `Tokenizer::parse_unicode` (`src/de/token.rs` lines 130-142): read 4 hex
digits big-endian into a 16-bit accumulator, then append the UTF-8 encoding
of `char::from_u32_unchecked(hex)` to the buffer. -/
def parse_unicode (t : Tok) (buff : List Nat) : Except Error (List Nat × Tok) :=
  match parse_unicode_loop 4 0 t with
  | Except.error e => Except.error e
  | Except.ok (hex, t1) =>
    match from_u32_unchecked_utf8 hex with
    | some bs => Except.ok (buff ++ bs, t1)
    | none => Except.error (Error.undefinedBehavior hex)

/-- `Tokenizer::parse_escape_sequence` (`src/de/token.rs` lines 112-128):
eat a byte that must be `\`, then dispatch on the next byte: the eight
fixed single-byte escapes, `u` for a unicode escape, anything else an
`InvalidEscapeSequence` error carrying that byte and its position. -/
def parse_escape_sequence (t : Tok) (buff : List Nat) : Except Error (List Nat × Tok) :=
  match eat t with
  | Except.error e => Except.error e
  | Except.ok (none, _) => Except.error (Error.syn SyntaxError.eofWhileParsingEscapeSequence)
  | Except.ok (some (_, 92), t1) =>
    match eat t1 with
    | Except.error e => Except.error e
    | Except.ok (none, _) => Except.error (Error.syn SyntaxError.eofWhileParsingEscapeSequence)
    | Except.ok (some (p2, c), t2) =>
      if c = 34 then Except.ok (buff ++ [34], t2)
      else if c = 92 then Except.ok (buff ++ [92], t2)
      else if c = 47 then Except.ok (buff ++ [47], t2)
      else if c = 98 then Except.ok (buff ++ [8], t2)
      else if c = 102 then Except.ok (buff ++ [12], t2)
      else if c = 110 then Except.ok (buff ++ [10], t2)
      else if c = 114 then Except.ok (buff ++ [13], t2)
      else if c = 116 then Except.ok (buff ++ [9], t2)
      else if c = 117 then parse_unicode t2 buff
      else Except.error (Error.syn (SyntaxError.invalidEscapeSequence p2 c))
  | Except.ok (some (p, c), _) =>
    Except.error (Error.syn (SyntaxError.unexpectedTokenWhileStartParsingEscapeSequence p c))

/-- The content loop of `Tokenizer::parse_string_content`
(`src/de/token.rs` lines 100-110): peek; backslash starts an escape
sequence, an (unconsumed) closing quote ends the content, an ASCII control
byte is a `ControlCharacterWhileParsingString` error at that byte's
position, any other byte is eaten and pushed verbatim. Fuel bounds the
loop; every iteration consumes at least one byte, so any fuel exceeding the
stream length is enough. -/
def parse_string_content (fuel : Nat) (t : Tok) (buff : List Nat) :
    Except Error (List Nat × Tok) :=
  match fuel with
  | 0 => Except.error Error.fuelExhausted
  | fuel + 1 =>
    match find t with
    | Except.error e => Except.error e
    | Except.ok none => Except.error (Error.syn SyntaxError.eofWhileEndParsingString)
    | Except.ok (some (p, c)) =>
      if c = 92 then
        match parse_escape_sequence t buff with
        | Except.error e => Except.error e
        | Except.ok (buff1, t1) => parse_string_content fuel t1 buff1
      else if c = 34 then Except.ok (buff, t)
      else if isAsciiControl c then
        Except.error (Error.syn (SyntaxError.controlCharacterWhileParsingString p c))
      else
        match eat t with
        | Except.error e => Except.error e
        | Except.ok (none, _) => Except.error Error.ensureEatAfterFind
        | Except.ok (some (_, c1), t1) => parse_string_content fuel t1 (buff ++ [c1])

/-- `Tokenizer::parse_string` (`src/de/token.rs` lines 86-98): an opening
quote (after eating whitespace), the content, then the closing quote must
be the next byte. -/
def parse_string (t : Tok) : Except Error (List Nat × Tok) :=
  match eat_whitespace t with
  | Except.error e => Except.error e
  | Except.ok (none, _) => Except.error (Error.syn SyntaxError.eofWhileStartParsingString)
  | Except.ok (some (_, 34), t1) =>
    match parse_string_content (t1.length + 1) t1 [] with
    | Except.error e => Except.error e
    | Except.ok (buff, t2) =>
      match eat t2 with
      | Except.error e => Except.error e
      | Except.ok (none, _) => Except.error (Error.syn SyntaxError.eofWhileEndParsingString)
      | Except.ok (some (_, 34), t3) => Except.ok (buff, t3)
      | Except.ok (some (p, c), _) =>
        Except.error (Error.syn (SyntaxError.unexpectedTokenWhileEndParsingString p c))
  | Except.ok (some (p, c), _) =>
    Except.error (Error.syn (SyntaxError.unexpectedTokenWhileStartParsingString p c))

/-- `Deserializer::finish` (`src/de.rs` lines 29-34): after the top-level
value, `eat_whitespace` must reach end of input; any remaining byte it
returns is an `ExpectedEof` error carrying that byte and its position. -/
def finish (t : Tok) : Except Error Unit :=
  match eat_whitespace t with
  | Except.error e => Except.error e
  | Except.ok (some (p, c), _) => Except.error (Error.syn (SyntaxError.expectedEof p c))
  | Except.ok (none, _) => Except.ok ()

/-- C6: after a backslash, each of the eight two-byte escapes decodes to
exactly one fixed output byte appended to the buffer — `\"`→0x22, `\\`→0x5C,
`\/`→0x2F, `\b`→0x08, `\f`→0x0C, `\n`→0x0A, `\r`→0x0D, `\t`→0x09 — and a
backslash followed by any byte other than these eight or `u` (0x75) yields
an `InvalidEscapeSequence` error carrying the offending byte and its
position. -/
theorem parse_escape_sequence_spec (p1 p2 : Position) (c : Nat) (rest : Tok)
    (buff : List Nat) :
    (c = 34 → parse_escape_sequence ((p1, Except.ok 92) :: (p2, Except.ok c) :: rest) buff =
      Except.ok (buff ++ [34], rest))
    ∧ (c = 92 → parse_escape_sequence ((p1, Except.ok 92) :: (p2, Except.ok c) :: rest) buff =
      Except.ok (buff ++ [92], rest))
    ∧ (c = 47 → parse_escape_sequence ((p1, Except.ok 92) :: (p2, Except.ok c) :: rest) buff =
      Except.ok (buff ++ [47], rest))
    ∧ (c = 98 → parse_escape_sequence ((p1, Except.ok 92) :: (p2, Except.ok c) :: rest) buff =
      Except.ok (buff ++ [8], rest))
    ∧ (c = 102 → parse_escape_sequence ((p1, Except.ok 92) :: (p2, Except.ok c) :: rest) buff =
      Except.ok (buff ++ [12], rest))
    ∧ (c = 110 → parse_escape_sequence ((p1, Except.ok 92) :: (p2, Except.ok c) :: rest) buff =
      Except.ok (buff ++ [10], rest))
    ∧ (c = 114 → parse_escape_sequence ((p1, Except.ok 92) :: (p2, Except.ok c) :: rest) buff =
      Except.ok (buff ++ [13], rest))
    ∧ (c = 116 → parse_escape_sequence ((p1, Except.ok 92) :: (p2, Except.ok c) :: rest) buff =
      Except.ok (buff ++ [9], rest))
    ∧ (c ≠ 34 → c ≠ 92 → c ≠ 47 → c ≠ 98 → c ≠ 102 → c ≠ 110 → c ≠ 114 → c ≠ 116 →
      c ≠ 117 →
      parse_escape_sequence ((p1, Except.ok 92) :: (p2, Except.ok c) :: rest) buff =
        Except.error (Error.syn (SyntaxError.invalidEscapeSequence p2 c))) := by
  refine ⟨?_, ?_, ?_, ?_, ?_, ?_, ?_, ?_, ?_⟩
  · intro h; subst h; rfl
  · intro h; subst h; rfl
  · intro h; subst h; rfl
  · intro h; subst h; rfl
  · intro h; subst h; rfl
  · intro h; subst h; rfl
  · intro h; subst h; rfl
  · intro h; subst h; rfl
  · intro h34 h92 h47 h98 h102 h110 h114 h116 h117
    simp [parse_escape_sequence, eat, h34, h92, h47, h98, h102, h110, h114, h116, h117]

/-- Witness for C6 at a concrete input: `\n` decodes to the single byte
0x0A. -/
theorem parse_escape_sequence_spec_witness :
    parse_escape_sequence
      ((((0, 0) : Position), Except.ok 92) :: (((0, 1) : Position), Except.ok 110) :: [])
      [] = Except.ok ([10], []) := by
  have h := (parse_escape_sequence_spec (0, 0) (0, 1) 110 [] []).2.2.2.2.2.1 rfl
  simpa using h

/-- C8: whenever the string-content loop reaches an unescaped ASCII control
byte `c < 0x20` (any such byte is neither `\` = 0x5C nor `"` = 0x22, and
`u8::is_ascii_control` holds of it), the parse aborts at once with a
`ControlCharacterWhileParsingString` error carrying that byte and its
position — the byte is never accepted into the decoded buffer. -/
theorem parse_string_content_control_spec (fuel : Nat) (p : Position) (c : Nat)
    (rest : Tok) (buff : List Nat) (h : c < 0x20) :
    parse_string_content (fuel + 1) ((p, Except.ok c) :: rest) buff =
      Except.error (Error.syn (SyntaxError.controlCharacterWhileParsingString p c)) := by
  have h92 : ¬ (c = 92) := by omega
  have h34 : ¬ (c = 34) := by omega
  have hctl : isAsciiControl c = true := by
    simp only [isAsciiControl, Bool.or_eq_true, decide_eq_true_eq]
    exact Or.inl h
  simp [parse_string_content, find, h92, h34, hctl]

/-- Witness for C8 at a concrete input: a raw line-feed byte (0x0A) inside a
string literal aborts the content loop at its position. -/
theorem parse_string_content_control_spec_witness :
    parse_string_content 4
      ((((0, 2) : Position), Except.ok 10) :: (((0, 3) : Position), Except.ok 98) :: [])
      [97] =
      Except.error (Error.syn (SyntaxError.controlCharacterWhileParsingString (0, 2) 10)) :=
  parse_string_content_control_spec 3 (0, 2) 10 _ [97] (by decide)

/-- The full `parse_string` on the literal `"a<LF>b"` (a raw line feed
between quotes) fails with the control-character error at the line feed's
position `(0, 2)` — the spec's "control character rejection" example. -/
theorem parse_string_raw_linefeed :
    parse_string (tokenize [34, 97, 10, 98, 34]) =
      Except.error (Error.syn (SyntaxError.controlCharacterWhileParsingString (0, 2) 10)) := rfl

/-- C5 (evaluation at the failing input): on the escape body `D800` the
four hex digits are read and combined into `0xD800`, but `0xD800` is a
surrogate, not a Unicode scalar value, so the source's
`char::from_u32_unchecked(0xD800)` violates its safety precondition: the
step has no well-defined UTF-8 encoding (undefined behavior), contradicting
the claim that the encoding step is total and sound for all 2^16 values. -/
theorem parse_unicode_surrogate_ub :
    parse_unicode (tokenize [68, 56, 48, 48]) [] =
      Except.error (Error.undefinedBehavior 0xD800) := rfl

/-- The sound part of `parse_unicode`: four case-insensitive hex digits are
combined big-endian, and when the result is a Unicode scalar value its
UTF-8 encoding is appended to the buffer. -/
theorem parse_unicode_ok_of_scalar (p1 p2 p3 p4 : Position)
    (c1 c2 c3 c4 d1 d2 d3 d4 : Nat) (rest : Tok) (buff : List Nat)
    (h1 : hexDigitVal c1 = some d1) (h2 : hexDigitVal c2 = some d2)
    (h3 : hexDigitVal c3 = some d3) (h4 : hexDigitVal c4 = some d4)
    (hs : isUnicodeScalar (d1 * 4096 + d2 * 256 + d3 * 16 + d4) = true) :
    parse_unicode ((p1, Except.ok c1) :: (p2, Except.ok c2) :: (p3, Except.ok c3) ::
        (p4, Except.ok c4) :: rest) buff =
      Except.ok (buff ++ utf8Bytes (d1 * 4096 + d2 * 256 + d3 * 16 + d4), rest) := by
  have hx : 0 + d1 * 16 ^ 3 + d2 * 16 ^ 2 + d3 * 16 ^ 1 + d4 * 16 ^ 0 =
      d1 * 4096 + d2 * 256 + d3 * 16 + d4 := by ring
  simp [parse_unicode, parse_unicode_loop, eat, h1, h2, h3, h4, hx,
    from_u32_unchecked_utf8, hs]

/-- The error part of `parse_unicode`: a non-hex byte among the four is an
`InvalidUnicodeEscape` error carrying that byte and its position (shown
here for each of the four digit slots). -/
theorem parse_unicode_invalid_digit (p1 p2 p3 p4 : Position)
    (c1 c2 c3 c4 : Nat) (rest : Tok) (buff : List Nat) :
    (hexDigitVal c1 = none →
      parse_unicode ((p1, Except.ok c1) :: rest) buff =
        Except.error (Error.syn (SyntaxError.invalidUnicodeEscape p1 c1)))
    ∧ (∀ d1, hexDigitVal c1 = some d1 → hexDigitVal c2 = none →
      parse_unicode ((p1, Except.ok c1) :: (p2, Except.ok c2) :: rest) buff =
        Except.error (Error.syn (SyntaxError.invalidUnicodeEscape p2 c2)))
    ∧ (∀ d1 d2, hexDigitVal c1 = some d1 → hexDigitVal c2 = some d2 →
      hexDigitVal c3 = none →
      parse_unicode ((p1, Except.ok c1) :: (p2, Except.ok c2) :: (p3, Except.ok c3) ::
          rest) buff =
        Except.error (Error.syn (SyntaxError.invalidUnicodeEscape p3 c3)))
    ∧ (∀ d1 d2 d3, hexDigitVal c1 = some d1 → hexDigitVal c2 = some d2 →
      hexDigitVal c3 = some d3 → hexDigitVal c4 = none →
      parse_unicode ((p1, Except.ok c1) :: (p2, Except.ok c2) :: (p3, Except.ok c3) ::
          (p4, Except.ok c4) :: rest) buff =
        Except.error (Error.syn (SyntaxError.invalidUnicodeEscape p4 c4))) := by
  refine ⟨?_, ?_, ?_, ?_⟩
  · intro h1; simp [parse_unicode, parse_unicode_loop, eat, h1]
  · intro d1 h1 h2; simp [parse_unicode, parse_unicode_loop, eat, h1, h2]
  · intro d1 d2 h1 h2 h3; simp [parse_unicode, parse_unicode_loop, eat, h1, h2, h3]
  · intro d1 d2 d3 h1 h2 h3 h4
    simp [parse_unicode, parse_unicode_loop, eat, h1, h2, h3, h4]

theorem finish_cons_ws (p : Position) (c : Nat) (rest : Tok)
    (h : isAsciiWhitespace c = true) :
    finish ((p, Except.ok c) :: rest) = finish rest := by
  simp [finish, eat_whitespace, h]

/-- `finish` succeeds exactly when every remaining stream item is an
`Ok` byte that is ASCII whitespace (in particular at end of input); comments
are *not* skipped by `eat_whitespace` in `src/de/token.rs`, so a remaining
comment is rejected. -/
theorem finish_ok_iff (t : Tok) :
    finish t = Except.ok () ↔
      ∀ x ∈ t, ∃ p c, x = (p, Except.ok c) ∧ isAsciiWhitespace c = true := by
  induction t with
  | nil => simp [finish, eat_whitespace]
  | cons a rest ih =>
    rcases a with ⟨p, it⟩
    rcases it with e | c
    · constructor
      · intro h; simp [finish, eat_whitespace] at h
      · intro h
        rcases h (p, Except.error e) (List.mem_cons_self _ _) with ⟨p1, c1, hx, _⟩
        exact absurd hx (by simp)
    · by_cases hw : isAsciiWhitespace c = true
      · rw [finish_cons_ws p c rest hw, ih]
        constructor
        · intro h x hx
          rcases List.mem_cons.mp hx with h1 | h1
          · exact ⟨p, c, by simp [h1], hw⟩
          · exact h x h1
        · intro h x hx; exact h x (List.mem_cons_of_mem _ hx)
      · constructor
        · intro h
          simp [finish, eat_whitespace, hw] at h
        · intro h
          rcases h (p, Except.ok c) (List.mem_cons_self _ _) with ⟨p1, c1, hx, hwc⟩
          have hc : c = c1 := by
            have h2 := congrArg Prod.snd hx
            simpa using h2
          exact absurd (hc.symm ▸ hwc) hw

/-- C7 (evaluation at the failing input): with only the line comment `//c`
remaining after the top-level value, `finish` returns an `ExpectedEof`
error at the first `/` instead of succeeding — `eat_whitespace` treats `/`
as a significant byte because comment skipping is absent from
`src/de/token.rs`, although the repository's own integration test
(`tests/integration/spec.rs`, `test_deserialize_ignored`) requires comments
to be skipped. -/
theorem finish_trailing_comment_code_bug :
    finish (tokenize [47, 47, 99]) =
      Except.error (Error.syn (SyntaxError.expectedEof (0, 0) 47)) := rfl

/-- `0-9`. -/
def isDigit (c : Nat) : Bool := 48 ≤ c && c ≤ 57

/-- Decimal value of a digit-byte run. -/
def digitsVal (ds : List Nat) : Nat := ds.foldl (fun acc d => acc * 10 + (d - 48)) 0

/-- Greedy digit run. -/
def parse_number_digits : Tok → List Nat → List Nat × Tok
  | [], acc => (acc, [])
  | (p, Except.ok c) :: rest, acc =>
    if isDigit c then parse_number_digits rest (acc ++ [c])
    else (acc, (p, Except.ok c) :: rest)
  | (p, Except.error e) :: rest, acc => (acc, (p, Except.error e) :: rest)

/-- Modelled from the spec: `Tokenizer::parse_number` is absent from the
`src/de/token.rs` snapshot (only its callers in `src/de.rs` and the
`NumberBuilder` it feeds in `src/value/number.rs` are present). Per the
spec (§4.2, §6): a numeric literal is an optional leading `-`, a digit run,
an optional `.` fraction and an optional `e`/`E` exponent; the literal is
classified integer unless a fraction dot or exponent marker is present, and
is converted "via the target numeric type's own text-to-value conversion".
This model fixes a signed-integer target (the shape the claims exercise):
the digit run converts to its signed decimal value, and a fraction dot or
exponent marker — which flips the `NumberBuilder` classification to float —
makes the integer target's text conversion fail, surfaced as an
`invalidNumber` error at that marker. -/
def parse_number (t : Tok) : Except Error (Int × Tok) :=
  match skip_whitespace t with
  | Except.error e => Except.error e
  | Except.ok (none, _) => Except.error (Error.syn SyntaxError.eofWhileStartParsingNumber)
  | Except.ok (some (p, c), t1) =>
    let neg : Bool := c = 45
    let t2 : Tok := if c = 45 then t1.tail else t1
    match parse_number_digits t2 [] with
    | ([], _) => Except.error (Error.syn (SyntaxError.invalidNumber p c))
    | (ds, t3) =>
      match t3 with
      | (p4, Except.ok 46) :: _ =>
        Except.error (Error.syn (SyntaxError.invalidNumber p4 46))
      | (p4, Except.ok 101) :: _ =>
        Except.error (Error.syn (SyntaxError.invalidNumber p4 101))
      | (p4, Except.ok 69) :: _ =>
        Except.error (Error.syn (SyntaxError.invalidNumber p4 69))
      | _ =>
        Except.ok ((if neg then -(digitsVal ds : Int) else (digitsVal ds : Int)), t3)

/-- `Deserializer::deserialize_bool` (`src/de.rs` lines 57-66): peek past
whitespace; `t` parses the identifier `true`, `f` parses `false`, anything
else is an `UnexpectedTokenWhileParsingBool` error. -/
def deserialize_bool (t : Tok) : Except Error (Bool × Tok) :=
  match skip_whitespace t with
  | Except.error e => Except.error e
  | Except.ok (none, _) => Except.error (Error.syn SyntaxError.eofWhileStartParsingBool)
  | Except.ok (some (p, c), t1) =>
    if c = 116 then parse_ident [116, 114, 117, 101] true t1
    else if c = 102 then parse_ident [102, 97, 108, 115, 101] false t1
    else Except.error (Error.syn (SyntaxError.unexpectedTokenWhileParsingBool p c))

/-- `Deserializer::deserialize_unit` (`src/de.rs` lines 206-214): peek past
whitespace; `n` parses the identifier `null`, anything else is an
`UnexpectedTokenWhileParsingNull` error. -/
def deserialize_unit (t : Tok) : Except Error (Unit × Tok) :=
  match skip_whitespace t with
  | Except.error e => Except.error e
  | Except.ok (none, _) => Except.error (Error.syn SyntaxError.eofWhileStartParsingNull)
  | Except.ok (some (p, c), t1) =>
    if c = 110 then parse_ident [110, 117, 108, 108] () t1
    else Except.error (Error.syn (SyntaxError.unexpectedTokenWhileParsingNull p c))

/-- `Deserializer::deserialize_str` (`src/de.rs` lines 159-170): peek past
whitespace; `"` hands off to `parse_string` (the decoded bytes are the
text, borrowed or owned), anything else is an
`UnexpectedTokenWhileStartParsingString` error. -/
def deserialize_str (t : Tok) : Except Error (List Nat × Tok) :=
  match skip_whitespace t with
  | Except.error e => Except.error e
  | Except.ok (none, _) => Except.error (Error.syn SyntaxError.eofWhileStartParsingString)
  | Except.ok (some (p, c), t1) =>
    if c = 34 then parse_string t1
    else Except.error (Error.syn (SyntaxError.unexpectedTokenWhileStartParsingString p c))

/-- `SeqDeserializer::next_element_seed` (`src/de.rs` lines 398-413),
generic in the element seed (what `seed.deserialize(&mut *self.deserializer)`
parses): peek past whitespace; `]` means no more elements (left
unconsumed); otherwise parse one element; then the next significant byte
must be `,` (consumed) or `]` (left unconsumed), anything else an
`UnexpectedTokenWhileParsingArrayValue` error. -/
def seq_next_element_seed {α : Type} (seed : Tok → Except Error (α × Tok)) (t : Tok) :
    Except Error (Option α × Tok) :=
  match skip_whitespace t with
  | Except.error e => Except.error e
  | Except.ok (none, _) => Except.error (Error.syn SyntaxError.eofWhileStartParsingArray)
  | Except.ok (some (_, c), t1) =>
    let elem : Except Error (Option α × Tok) :=
      if c = 93 then Except.ok (none, t1)
      else match seed t1 with
        | Except.error e => Except.error e
        | Except.ok (v, t2) => Except.ok (some v, t2)
    match elem with
    | Except.error e => Except.error e
    | Except.ok (v, t2) =>
      match skip_whitespace t2 with
      | Except.error e => Except.error e
      | Except.ok (none, _) => Except.error (Error.syn SyntaxError.eofWhileEndParsingArray)
      | Except.ok (some (p3, c3), t3) =>
        if c3 = 44 then
          match eat t3 with
          | Except.error e => Except.error e
          | Except.ok (none, _) => Except.error Error.ensureEatAfterFind
          | Except.ok (some _, t4) => Except.ok (v, t4)
        else if c3 = 93 then Except.ok (v, t3)
        else Except.error (Error.syn (SyntaxError.unexpectedTokenWhileParsingArrayValue p3 c3))

/-- The `visit_seq` pull loop of a sequence visitor: call
`next_element_seed` until it signals no more elements. Fuel bounds the
loop (each `some` iteration consumes at least the element's bytes). -/
def seq_elements {α : Type} (seed : Tok → Except Error (α × Tok)) :
    Nat → Tok → Except Error (List α × Tok)
  | 0, _ => Except.error Error.fuelExhausted
  | fuel + 1, t =>
    match seq_next_element_seed seed t with
    | Except.error e => Except.error e
    | Except.ok (none, t1) => Except.ok ([], t1)
    | Except.ok (some v, t1) =>
      match seq_elements seed fuel t1 with
      | Except.error e => Except.error e
      | Except.ok (vs, t2) => Except.ok (v :: vs, t2)

/-- `Deserializer::deserialize_seq` (`src/de.rs` lines 230-244): eat
whitespace expecting `[`, run the visitor's element loop, then eat
whitespace expecting the closing `]` (which `next_element_seed` left
unconsumed). -/
def deserialize_seq {α : Type} (seed : Tok → Except Error (α × Tok)) (fuel : Nat)
    (t : Tok) : Except Error (List α × Tok) :=
  match eat_whitespace t with
  | Except.error e => Except.error e
  | Except.ok (none, _) => Except.error (Error.syn SyntaxError.eofWhileStartParsingArray)
  | Except.ok (some (p, c), t1) =>
    if c = 91 then
      match seq_elements seed fuel t1 with
      | Except.error e => Except.error e
      | Except.ok (vs, t2) =>
        match eat_whitespace t2 with
        | Except.error e => Except.error e
        | Except.ok (none, _) => Except.error (Error.syn SyntaxError.eofWhileEndParsingArray)
        | Except.ok (some (p3, c3), t3) =>
          if c3 = 93 then Except.ok (vs, t3)
          else Except.error (Error.syn (SyntaxError.unexpectedTokenWhileEndParsingArray p3 c3))
    else Except.error (Error.syn (SyntaxError.unexpectedTokenWhileStartParsingArray p c))

/-- `MapDeserializer::next_key_seed` (`src/de.rs` lines 349-358), generic in
the key seed: peek past whitespace; `"` parses a text key, `}` signals no
more entries (left unconsumed), anything else an
`UnexpectedTokenWhileParsingObjectKey` error. -/
def map_next_key_seed {κ : Type} (keySeed : Tok → Except Error (κ × Tok)) (t : Tok) :
    Except Error (Option κ × Tok) :=
  match skip_whitespace t with
  | Except.error e => Except.error e
  | Except.ok (none, _) => Except.error (Error.syn SyntaxError.eofWhileParsingObjectKey)
  | Except.ok (some (p, c), t1) =>
    if c = 34 then
      match keySeed t1 with
      | Except.error e => Except.error e
      | Except.ok (k, t2) => Except.ok (some k, t2)
    else if c = 125 then Except.ok (none, t1)
    else Except.error (Error.syn (SyntaxError.unexpectedTokenWhileParsingObjectKey p c))

/-- `MapDeserializer::next_value_seed` (`src/de.rs` lines 360-375), generic
in the value seed: eat whitespace expecting `:`, parse the value, then the
next significant byte must be `,` (consumed) or `}` (left unconsumed),
anything else an `UnexpectedTokenWhileEndParsingObjectValue` error. -/
def map_next_value_seed {β : Type} (valSeed : Tok → Except Error (β × Tok)) (t : Tok) :
    Except Error (β × Tok) :=
  match eat_whitespace t with
  | Except.error e => Except.error e
  | Except.ok (none, _) => Except.error (Error.syn SyntaxError.eofWhileParsingObjectValue)
  | Except.ok (some (p, c), t1) =>
    if c = 58 then
      match valSeed t1 with
      | Except.error e => Except.error e
      | Except.ok (v, t2) =>
        match skip_whitespace t2 with
        | Except.error e => Except.error e
        | Except.ok (none, _) => Except.error (Error.syn SyntaxError.eofWhileParsingObjectValue)
        | Except.ok (some (p3, c3), t3) =>
          if c3 = 44 then
            match eat t3 with
            | Except.error e => Except.error e
            | Except.ok (none, _) => Except.error Error.ensureEatAfterFind
            | Except.ok (some _, t4) => Except.ok (v, t4)
          else if c3 = 125 then Except.ok (v, t3)
          else Except.error
            (Error.syn (SyntaxError.unexpectedTokenWhileEndParsingObjectValue p3 c3))
    else Except.error (Error.syn (SyntaxError.unexpectedTokenWhileStartParsingObjectValue p c))

/-- The `visit_map` pull loop of a map visitor: `next_key_seed` until it
signals no more entries, `next_value_seed` after each key. -/
def map_entries {κ β : Type} (keySeed : Tok → Except Error (κ × Tok))
    (valSeed : Tok → Except Error (β × Tok)) :
    Nat → Tok → Except Error (List (κ × β) × Tok)
  | 0, _ => Except.error Error.fuelExhausted
  | fuel + 1, t =>
    match map_next_key_seed keySeed t with
    | Except.error e => Except.error e
    | Except.ok (none, t1) => Except.ok ([], t1)
    | Except.ok (some k, t1) =>
      match map_next_value_seed valSeed t1 with
      | Except.error e => Except.error e
      | Except.ok (v, t2) =>
        match map_entries keySeed valSeed fuel t2 with
        | Except.error e => Except.error e
        | Except.ok (kvs, t3) => Except.ok ((k, v) :: kvs, t3)

/-- `Deserializer::deserialize_map` (`src/de.rs` lines 260-274): eat
whitespace expecting `{`, run the visitor's entry loop, then eat whitespace
expecting the closing `}` (which the adapter left unconsumed). -/
def deserialize_map {κ β : Type} (keySeed : Tok → Except Error (κ × Tok))
    (valSeed : Tok → Except Error (β × Tok)) (fuel : Nat) (t : Tok) :
    Except Error (List (κ × β) × Tok) :=
  match eat_whitespace t with
  | Except.error e => Except.error e
  | Except.ok (none, _) => Except.error (Error.syn SyntaxError.eofWhileStartParsingObject)
  | Except.ok (some (p, c), t1) =>
    if c = 123 then
      match map_entries keySeed valSeed fuel t1 with
      | Except.error e => Except.error e
      | Except.ok (kvs, t2) =>
        match eat_whitespace t2 with
        | Except.error e => Except.error e
        | Except.ok (none, _) => Except.error (Error.syn SyntaxError.eofWhileEndParsingObject)
        | Except.ok (some (p3, c3), t3) =>
          if c3 = 125 then Except.ok (kvs, t3)
          else Except.error (Error.syn (SyntaxError.unexpectedTokenWhileEndParsingObject p3 c3))
    else Except.error (Error.syn (SyntaxError.unexpectedTokenWhileStartParsingObject p c))

/-- Modelled from the spec: the crate entry point (`src/de/from.rs`, absent
from the snapshot; spec §6) parses exactly one value of the target shape
from the source and then requires end of input via `Deserializer::finish`.
Generic in the target shape's deserialize function. -/
def from_str {α : Type} (de : Tok → Except Error (α × Tok)) (bytes : List Nat) :
    Except Error α :=
  match de (tokenize bytes) with
  | Except.error e => Except.error e
  | Except.ok (v, t1) =>
    match finish t1 with
    | Except.error e => Except.error e
    | Except.ok _ => Except.ok v

/-- The untyped passthrough value produced by `deserialize_any` through
serde's value visitors. There is no number constructor: the number branch
of `deserialize_any` in this snapshot is `todo!()` and never produces a
value. -/
inductive JsonValue : Type where
  | null
  | bool (b : Bool)
  | str (s : List Nat)
  | arr (vs : List JsonValue)
  | obj (kvs : List (List Nat × JsonValue))

/-- `Deserializer::deserialize_any` (`src/de.rs` lines 42-55): peek past
whitespace and dispatch on the byte: `n`→`deserialize_unit`,
`f`/`t`→`deserialize_bool`, `-`/digit→`todo!()` (a panic, modelled by
`Error.panicTodo`), `"`→`deserialize_str`, `[`→`deserialize_seq`,
`{`→`deserialize_map`, anything else an `UnexpectedTokenWhileParsingValue`
error carrying the byte and its position. Fuel bounds the value-nesting
recursion. -/
def deserialize_any : Nat → Tok → Except Error (JsonValue × Tok)
  | 0, _ => Except.error Error.fuelExhausted
  | fuel + 1, t =>
    match skip_whitespace t with
    | Except.error e => Except.error e
    | Except.ok (none, _) => Except.error (Error.syn SyntaxError.eofWhileStartParsingValue)
    | Except.ok (some (p, c), t1) =>
      if c = 110 then
        match deserialize_unit t1 with
        | Except.error e => Except.error e
        | Except.ok (_, t2) => Except.ok (JsonValue.null, t2)
      else if c = 102 || c = 116 then
        match deserialize_bool t1 with
        | Except.error e => Except.error e
        | Except.ok (b, t2) => Except.ok (JsonValue.bool b, t2)
      else if c = 45 || isDigit c then Except.error Error.panicTodo
      else if c = 34 then
        match deserialize_str t1 with
        | Except.error e => Except.error e
        | Except.ok (s, t2) => Except.ok (JsonValue.str s, t2)
      else if c = 91 then
        match deserialize_seq (fun t2 => deserialize_any fuel t2) (fuel + 1) t1 with
        | Except.error e => Except.error e
        | Except.ok (vs, t2) => Except.ok (JsonValue.arr vs, t2)
      else if c = 123 then
        match deserialize_map deserialize_str (fun t2 => deserialize_any fuel t2)
            (fuel + 1) t1 with
        | Except.error e => Except.error e
        | Except.ok (kvs, t2) => Except.ok (JsonValue.obj kvs, t2)
      else Except.error (Error.syn (SyntaxError.unexpectedTokenWhileParsingValue p c))

/-- `Deserializer::deserialize_struct` (`src/de.rs` lines 276-290): peek
past whitespace; `{` goes to the struct's map path, `[` falls back to the
sequence (positional field values) path, anything else an
`UnexpectedTokenWhileStartParsingObject` error. Generic in the two
visitor continuations. -/
def deserialize_struct {α : Type} (mapParse seqParse : Tok → Except Error (α × Tok))
    (t : Tok) : Except Error (α × Tok) :=
  match skip_whitespace t with
  | Except.error e => Except.error e
  | Except.ok (none, _) => Except.error (Error.syn SyntaxError.eofWhileStartParsingValue)
  | Except.ok (some (p, c), t1) =>
    if c = 123 then mapParse t1
    else if c = 91 then seqParse t1
    else Except.error (Error.syn (SyntaxError.unexpectedTokenWhileStartParsingObject p c))

/-- `Deserializer::deserialize_enum` (`src/de.rs` lines 292-311): eat
whitespace expecting `{`, run the visitor (`visit_enum` on an
`EnumDeserializer`, abstracted as `body`), then eat whitespace expecting
the closing `}` — the enum dispatch itself, not the variant adapter,
consumes the final `}`. -/
def deserialize_enum {α : Type} (body : Tok → Except Error (α × Tok)) (t : Tok) :
    Except Error (α × Tok) :=
  match eat_whitespace t with
  | Except.error e => Except.error e
  | Except.ok (none, _) => Except.error (Error.syn SyntaxError.eofWhileStartParsingEnum)
  | Except.ok (some (p, c), t1) =>
    if c = 123 then
      match body t1 with
      | Except.error e => Except.error e
      | Except.ok (v, t2) =>
        match eat_whitespace t2 with
        | Except.error e => Except.error e
        | Except.ok (none, _) => Except.error (Error.syn SyntaxError.eofWhileEndParsingEnum)
        | Except.ok (some (p3, c3), t3) =>
          if c3 = 125 then Except.ok (v, t3)
          else Except.error (Error.syn (SyntaxError.unexpectedTokenWhileEndParsingEnum p3 c3))
    else Except.error (Error.syn (SyntaxError.unexpectedTokenWhileStartParsingEnum p c))

/-- `VariantAccess::unit_variant` (`src/de.rs` lines 451-456): eat
whitespace expecting `:`, then `Deserialize::deserialize` for `()`, which
is `deserialize_unit` — the identifier `null`. -/
def unit_variant (t : Tok) : Except Error (Unit × Tok) :=
  match eat_whitespace t with
  | Except.error e => Except.error e
  | Except.ok (none, _) => Except.error (Error.syn SyntaxError.eofWhileParsingObjectValue)
  | Except.ok (some (p, c), t1) =>
    if c = 58 then deserialize_unit t1
    else Except.error (Error.syn (SyntaxError.unexpectedTokenWhileStartParsingEnumValue p c))

/-- `VariantAccess::newtype_variant_seed` (`src/de.rs` lines 458-466): eat
whitespace expecting `:`, then recurse for exactly one value via the seed. -/
def newtype_variant_seed {α : Type} (seed : Tok → Except Error (α × Tok)) (t : Tok) :
    Except Error (α × Tok) :=
  match eat_whitespace t with
  | Except.error e => Except.error e
  | Except.ok (none, _) => Except.error (Error.syn SyntaxError.eofWhileParsingObjectValue)
  | Except.ok (some (p, c), t1) =>
    if c = 58 then seed t1
    else Except.error (Error.syn (SyntaxError.unexpectedTokenWhileStartParsingEnumValue p c))

/-- `VariantAccess::tuple_variant` (`src/de.rs` lines 468-476): eat
whitespace expecting `:`, then `deserialize_seq`. -/
def tuple_variant {α : Type} (seed : Tok → Except Error (α × Tok)) (fuel : Nat)
    (t : Tok) : Except Error (List α × Tok) :=
  match eat_whitespace t with
  | Except.error e => Except.error e
  | Except.ok (none, _) => Except.error (Error.syn SyntaxError.eofWhileParsingObjectValue)
  | Except.ok (some (p, c), t1) =>
    if c = 58 then deserialize_seq seed fuel t1
    else Except.error (Error.syn (SyntaxError.unexpectedTokenWhileStartParsingEnumValue p c))

/-- `VariantAccess::struct_variant` (`src/de.rs` lines 478-486): eat
whitespace expecting `:`, then `deserialize_struct` — which accepts `{`
(map form) or `[` (positional sequence fallback). -/
def struct_variant {α : Type} (mapParse seqParse : Tok → Except Error (α × Tok))
    (t : Tok) : Except Error (α × Tok) :=
  match eat_whitespace t with
  | Except.error e => Except.error e
  | Except.ok (none, _) => Except.error (Error.syn SyntaxError.eofWhileParsingObjectValue)
  | Except.ok (some (p, c), t1) =>
    if c = 58 then deserialize_struct mapParse seqParse t1
    else Except.error (Error.syn (SyntaxError.unexpectedTokenWhileStartParsingEnumValue p c))

/-- A target enum exercising all four declared variant shapes, mirroring
the repository's own test enums (`tests/integration/spec.rs`):
unit `Web`, newtype `Api(String)`, tuple `OnPremises(..)`, struct
`Db { dbms: String }`. -/
inductive WireVariant : Type where
  | web
  | api (s : List Nat)
  | onPremises (args : List (List Nat))
  | db (dbms : List Nat)
  deriving DecidableEq, Repr

/-- The derived struct visitor for the payload `Db { dbms }` read from its
map form: exactly the entry list `[("dbms", v)]` yields the field; anything
else surfaces through the error type's custom constructor, which in
`src/error.rs` is `todo!()` (modelled by `panicTodo`). -/
def db_fields_of_map (kvs : List (List Nat × List Nat)) : Except Error (List Nat) :=
  match kvs with
  | [([100, 98, 109, 115], v)] => Except.ok v
  | _ => Except.error Error.panicTodo

/-- Map path of the `Db { dbms }` struct visitor. -/
def db_struct_map (fuel : Nat) (t : Tok) : Except Error (List Nat × Tok) :=
  match deserialize_map deserialize_str deserialize_str fuel t with
  | Except.error e => Except.error e
  | Except.ok (kvs, t1) =>
    match db_fields_of_map kvs with
    | Except.error e => Except.error e
    | Except.ok v => Except.ok (v, t1)

/-- Sequence (positional) path of the `Db { dbms }` struct visitor: exactly
one element, the `dbms` field value. -/
def db_struct_seq (fuel : Nat) (t : Tok) : Except Error (List Nat × Tok) :=
  match deserialize_seq deserialize_str fuel t with
  | Except.error e => Except.error e
  | Except.ok ([v], t1) => Except.ok (v, t1)
  | Except.ok (_, _) => Except.error Error.panicTodo

/-- The `visit_enum` body serde derives for `WireVariant`:
`variant_seed` reads the tag text (`deserialize_identifier`, i.e.
`deserialize_str`), then the visitor selects the variant-shape call on the
`EnumDeserializer` from the declared shape of that variant. An unknown tag
surfaces through the custom error constructor (`todo!()` in
`src/error.rs`). -/
def wire_variant_body (fuel : Nat) (t : Tok) : Except Error (WireVariant × Tok) :=
  match deserialize_str t with
  | Except.error e => Except.error e
  | Except.ok (tag, t1) =>
    if tag = [87, 101, 98] then
      match unit_variant t1 with
      | Except.error e => Except.error e
      | Except.ok (_, t2) => Except.ok (WireVariant.web, t2)
    else if tag = [65, 112, 105] then
      match newtype_variant_seed deserialize_str t1 with
      | Except.error e => Except.error e
      | Except.ok (s, t2) => Except.ok (WireVariant.api s, t2)
    else if tag = [79, 110, 80, 114, 101, 109, 105, 115, 101, 115] then
      match tuple_variant deserialize_str fuel t1 with
      | Except.error e => Except.error e
      | Except.ok (args, t2) => Except.ok (WireVariant.onPremises args, t2)
    else if tag = [68, 98] then
      match struct_variant (db_struct_map fuel) (db_struct_seq fuel) t1 with
      | Except.error e => Except.error e
      | Except.ok (v, t2) => Except.ok (WireVariant.db v, t2)
    else Except.error Error.panicTodo

/-- Deserializing a `WireVariant`: `deserialize_enum` around the derived
visitor body. -/
def parse_wire (fuel : Nat) (t : Tok) : Except Error (WireVariant × Tok) :=
  deserialize_enum (wire_variant_body fuel) t

theorem skip_whitespace_some (t t1 : Tok) (p : Position) (c : Nat)
    (h : skip_whitespace t = Except.ok (some (p, c), t1)) :
    t1 = (p, Except.ok c) :: t1.tail ∧ isAsciiWhitespace c = false := by
  induction t with
  | nil => simp [skip_whitespace] at h
  | cons a rest ih =>
    rcases a with ⟨q, it⟩
    rcases it with e | b
    · simp [skip_whitespace] at h
    · by_cases hw : isAsciiWhitespace b = true
      · rw [show skip_whitespace ((q, Except.ok b) :: rest) = skip_whitespace rest from by
          simp [skip_whitespace, hw]] at h
        exact ih h
      · have hw2 : isAsciiWhitespace b = false := by
          exact Bool.eq_false_iff.mpr hw
        simp only [skip_whitespace, hw2, Bool.false_eq_true, if_false,
          Except.ok.injEq, Prod.mk.injEq] at h
        obtain ⟨hsome, ht⟩ := h
        obtain ⟨hq, hb⟩ : q = p ∧ b = c := by
          have h1 := congrArg (fun o => Option.map Prod.fst o) hsome
          have h2 := congrArg (fun o => Option.map Prod.snd o) hsome
          simp at h1 h2
          exact ⟨h1, h2⟩
        subst hq; subst hb
        constructor
        · rw [← ht]
          rfl
        · exact hw2

/-- `skip_whitespace` is non-destructive at its result: running it again on
the returned state returns the same significant byte and state. -/
theorem skip_whitespace_fix (t t1 : Tok) (p : Position) (c : Nat)
    (h : skip_whitespace t = Except.ok (some (p, c), t1)) :
    skip_whitespace t1 = Except.ok (some (p, c), t1) := by
  obtain ⟨hshape, hw⟩ := skip_whitespace_some t t1 p c h
  conv_lhs => rw [hshape]
  simp [skip_whitespace, hw]
  exact hshape.symm

/-- C1 (evaluation at the failing input): the document
`{"a": 1 /* c */, // trailing\n "b": 2}` does *not* parse like
`{"a":1,"b":2}`: `skip_whitespace` (`src/de/token.rs` lines 41-59) skips
only ASCII whitespace, so the `/` opening the block comment is treated as a
significant byte and the parse fails with an
`UnexpectedTokenWhileEndParsingObjectValue` error at `(0, 8)`, while the
comment-free document parses to `{"a" ↦ 1, "b" ↦ 2}`. The repository's own
integration tests (`tests/integration/spec.rs` and `basic.rs`) require
comment-bearing documents to parse. -/
theorem comments_not_insignificant_code_bug :
    deserialize_map deserialize_str parse_number 100
        (tokenize [123, 34, 97, 34, 58, 32, 49, 32, 47, 42, 32, 99, 32, 42, 47, 44,
          32, 47, 47, 32, 116, 114, 97, 105, 108, 105, 110, 103, 10, 32, 34, 98, 34,
          58, 32, 50, 125]) =
      Except.error (Error.syn (SyntaxError.unexpectedTokenWhileEndParsingObjectValue (0, 8) 47))
    ∧ deserialize_map deserialize_str parse_number 100
        (tokenize [123, 34, 97, 34, 58, 49, 44, 34, 98, 34, 58, 50, 125]) =
      Except.ok ([([97], 1), ([98], 2)], []) := ⟨rfl, rfl⟩

/-- Support for C1: both whitespace skippers treat `/` (0x2F, the byte that
opens every comment lexeme) as a significant byte: they stop at it rather
than skipping it. -/
theorem slash_is_significant (p : Position) (rest : Tok) :
    skip_whitespace ((p, Except.ok 47) :: rest) =
      Except.ok (some (p, 47), (p, Except.ok 47) :: rest)
    ∧ eat_whitespace ((p, Except.ok 47) :: rest) = Except.ok (some (p, 47), rest) :=
  ⟨rfl, rfl⟩

/-- C2 (evaluation at the failing input): `deserialize_any` on a document
whose first significant byte is a digit (`1`) or `-` reaches the number
branch of the dispatch (`src/de.rs` line 49), which is `todo!()` — a panic,
not a normal return and not a parsed number. -/
theorem deserialize_any_number_panics :
    deserialize_any 10 (tokenize [49]) = Except.error Error.panicTodo
    ∧ deserialize_any 10 (tokenize [45, 49]) = Except.error Error.panicTodo := ⟨rfl, rfl⟩

/-- Support for C2: the remaining dispatch branches behave as specified —
`n` parses null, `t`/`f` parse booleans, `"` parses a string, `[` a
sequence, `{` a map, and any other significant byte is an
`UnexpectedTokenWhileParsingValue` error carrying that byte and its
position. -/
theorem deserialize_any_dispatch_examples :
    deserialize_any 10 (tokenize [110, 117, 108, 108]) = Except.ok (JsonValue.null, [])
    ∧ deserialize_any 10 (tokenize [116, 114, 117, 101]) =
      Except.ok (JsonValue.bool true, [])
    ∧ deserialize_any 10 (tokenize [102, 97, 108, 115, 101]) =
      Except.ok (JsonValue.bool false, [])
    ∧ deserialize_any 10 (tokenize [34, 97, 34]) = Except.ok (JsonValue.str [97], [])
    ∧ deserialize_any 10 (tokenize [91, 93]) = Except.ok (JsonValue.arr [], [])
    ∧ deserialize_any 10 (tokenize [123, 125]) = Except.ok (JsonValue.obj [], [])
    ∧ deserialize_any 10 (tokenize [64]) =
      Except.error (Error.syn (SyntaxError.unexpectedTokenWhileParsingValue (0, 0) 64)) :=
  ⟨rfl, rfl, rfl, rfl, rfl, rfl, rfl⟩

/-- C3: trailing-comma tolerance. Concretely, `[1, 2, 3,]` and `[1, 2, 3]`
parse to the same result, as do `{"a":1,}` and `{"a":1}`. Generally, for
the sequence adapter: after an element, a following `,` is consumed
(leaving exactly the post-comma stream) while a following `]` is left
unconsumed; a "next element" call whose first significant byte is `]`
signals end (`none`) without error and without consuming the `]`. For the
map adapter: after an entry's value, a following `,` is consumed and a
following `}` is left unconsumed; a "next key" call whose first significant
byte is `}` signals end without error. -/
theorem trailing_comma_spec :
    (deserialize_seq parse_number 100
        (tokenize [91, 49, 44, 32, 50, 44, 32, 51, 44, 93]) = Except.ok ([1, 2, 3], [])
      ∧ deserialize_seq parse_number 100
        (tokenize [91, 49, 44, 32, 50, 44, 32, 51, 93]) = Except.ok ([1, 2, 3], []))
    ∧ (deserialize_map deserialize_str parse_number 100
        (tokenize [123, 34, 97, 34, 58, 49, 44, 125]) = Except.ok ([([97], 1)], [])
      ∧ deserialize_map deserialize_str parse_number 100
        (tokenize [123, 34, 97, 34, 58, 49, 125]) = Except.ok ([([97], 1)], []))
    ∧ (∀ {α : Type} (seed : Tok → Except Error (α × Tok)) (t t1 t2 t3 : Tok)
        (p p3 : Position) (c : Nat) (v : α),
        skip_whitespace t = Except.ok (some (p, c), t1) → ¬ (c = 93) →
        seed t1 = Except.ok (v, t2) →
        (skip_whitespace t2 = Except.ok (some (p3, 44), t3) →
          seq_next_element_seed seed t = Except.ok (some v, t3.tail))
        ∧ (skip_whitespace t2 = Except.ok (some (p3, 93), t3) →
          seq_next_element_seed seed t = Except.ok (some v, t3)))
    ∧ (∀ {α : Type} (seed : Tok → Except Error (α × Tok)) (t t1 : Tok) (p : Position),
        skip_whitespace t = Except.ok (some (p, 93), t1) →
        seq_next_element_seed seed t = Except.ok (none, t1))
    ∧ (∀ {β : Type} (valSeed : Tok → Except Error (β × Tok)) (t t1 t2 t3 : Tok)
        (p p3 : Position) (v : β),
        eat_whitespace t = Except.ok (some (p, 58), t1) →
        valSeed t1 = Except.ok (v, t2) →
        (skip_whitespace t2 = Except.ok (some (p3, 44), t3) →
          map_next_value_seed valSeed t = Except.ok (v, t3.tail))
        ∧ (skip_whitespace t2 = Except.ok (some (p3, 125), t3) →
          map_next_value_seed valSeed t = Except.ok (v, t3)))
    ∧ (∀ {κ : Type} (keySeed : Tok → Except Error (κ × Tok)) (t t1 : Tok) (p : Position),
        skip_whitespace t = Except.ok (some (p, 125), t1) →
        map_next_key_seed keySeed t = Except.ok (none, t1)) := by
  refine ⟨⟨rfl, rfl⟩, ⟨rfl, rfl⟩, ?_, ?_, ?_, ?_⟩
  · intro α seed t t1 t2 t3 p p3 c v hskip hc hseed
    constructor
    · intro hcomma
      obtain ⟨hshape, _⟩ := skip_whitespace_some t2 t3 p3 44 hcomma
      have heat : eat t3 = Except.ok (some (p3, 44), t3.tail) := by
        conv_lhs => rw [hshape]
        rfl
      simp [seq_next_element_seed, hskip, hc, hseed, hcomma, heat]
    · intro hclose
      simp [seq_next_element_seed, hskip, hc, hseed, hclose]
  · intro α seed t t1 p hskip
    have hfix := skip_whitespace_fix t t1 p 93 hskip
    simp [seq_next_element_seed, hskip, hfix]
  · intro β valSeed t t1 t2 t3 p p3 v hcolon hseed
    constructor
    · intro hcomma
      obtain ⟨hshape, _⟩ := skip_whitespace_some t2 t3 p3 44 hcomma
      have heat : eat t3 = Except.ok (some (p3, 44), t3.tail) := by
        conv_lhs => rw [hshape]
        rfl
      simp [map_next_value_seed, hcolon, hseed, hcomma, heat]
    · intro hclose
      simp [map_next_value_seed, hcolon, hseed, hclose]
  · intro κ keySeed t t1 p hskip
    simp [map_next_key_seed, hskip]

/-- Witness for C3 at a concrete state: a "next element" call whose first
significant byte is `]` (the state right after a trailing comma was
consumed) signals end without error, leaving the `]` unconsumed. -/
theorem trailing_comma_spec_witness :
    seq_next_element_seed parse_number (tokenize [93]) =
      Except.ok ((none : Option Int), tokenize [93]) := by
  have h := trailing_comma_spec.2.2.2.1 parse_number (tokenize [93]) (tokenize [93])
    (0, 0) rfl
  exact h

/-- C9 counterexample: the claim that struct variants "require `:` followed
by a map (`{...}`)" is false on the code: the array payload in
`{"Db": ["MySQL"]}` is accepted for the struct variant `Db { dbms }` (via
`deserialize_struct`'s positional-sequence fallback, `src/de.rs` line 287)
instead of being rejected. -/
theorem enum_struct_variant_array_counterexample :
    parse_wire 100
        (tokenize [123, 34, 68, 98, 34, 58, 32, 91, 34, 77, 121, 83, 81, 76, 34, 93, 125]) =
      Except.ok (WireVariant.db [77, 121, 83, 81, 76], []) := rfl

/-- C9 (amended): the wire form of an enum is a single-entry object whose
key is the variant tag; after the tag, unit variants require `:` then
`null` (`deserialize_unit`), newtype variants require `:` then exactly one
value, tuple variants require `:` then a sequence, and struct variants
require `:` then a map *or an array* (the positional-field fallback of
`deserialize_struct`); a non-`:` byte after the tag is an
`UnexpectedTokenWhileStartParsingEnumValue` error; and the closing `}` of
the enclosing object is consumed by `deserialize_enum`, not by the variant
adapter. The four spec wire-form examples parse to the four declared
shapes. -/
theorem enum_payload_spec :
    (parse_wire 100 (tokenize [123, 34, 87, 101, 98, 34, 58, 32, 110, 117, 108, 108, 125]) =
      Except.ok (WireVariant.web, []))
    ∧ (parse_wire 100
        (tokenize [123, 34, 65, 112, 105, 34, 58, 32, 34, 103, 82, 80, 67, 34, 125]) =
      Except.ok (WireVariant.api [103, 82, 80, 67], []))
    ∧ (parse_wire 100
        (tokenize [123, 34, 79, 110, 80, 114, 101, 109, 105, 115, 101, 115, 34, 58, 32,
          91, 93, 125]) =
      Except.ok (WireVariant.onPremises [], []))
    ∧ (parse_wire 100
        (tokenize [123, 34, 68, 98, 34, 58, 32, 123, 34, 100, 98, 109, 115, 34, 58, 32,
          34, 77, 121, 83, 81, 76, 34, 125, 125]) =
      Except.ok (WireVariant.db [77, 121, 83, 81, 76], []))
    ∧ (∀ (t t1 : Tok) (p : Position) (c : Nat),
        eat_whitespace t = Except.ok (some (p, c), t1) →
        (c = 58 → unit_variant t = deserialize_unit t1)
        ∧ (¬ (c = 58) → unit_variant t =
          Except.error (Error.syn (SyntaxError.unexpectedTokenWhileStartParsingEnumValue p c))))
    ∧ (∀ {α : Type} (seed : Tok → Except Error (α × Tok)) (t t1 : Tok) (p : Position)
        (c : Nat),
        eat_whitespace t = Except.ok (some (p, c), t1) →
        (c = 58 → newtype_variant_seed seed t = seed t1)
        ∧ (¬ (c = 58) → newtype_variant_seed seed t =
          Except.error (Error.syn (SyntaxError.unexpectedTokenWhileStartParsingEnumValue p c))))
    ∧ (∀ {α : Type} (seed : Tok → Except Error (α × Tok)) (fuel : Nat) (t t1 : Tok)
        (p : Position) (c : Nat),
        eat_whitespace t = Except.ok (some (p, c), t1) →
        (c = 58 → tuple_variant seed fuel t = deserialize_seq seed fuel t1)
        ∧ (¬ (c = 58) → tuple_variant seed fuel t =
          Except.error (Error.syn (SyntaxError.unexpectedTokenWhileStartParsingEnumValue p c))))
    ∧ (∀ {α : Type} (mp sp : Tok → Except Error (α × Tok)) (t t1 : Tok) (p : Position)
        (c : Nat),
        eat_whitespace t = Except.ok (some (p, c), t1) →
        (c = 58 → struct_variant mp sp t = deserialize_struct mp sp t1)
        ∧ (¬ (c = 58) → struct_variant mp sp t =
          Except.error (Error.syn (SyntaxError.unexpectedTokenWhileStartParsingEnumValue p c))))
    ∧ (∀ {α : Type} (mp sp : Tok → Except Error (α × Tok)) (t t1 : Tok) (p : Position)
        (c : Nat),
        skip_whitespace t = Except.ok (some (p, c), t1) →
        (c = 123 → deserialize_struct mp sp t = mp t1)
        ∧ (c = 91 → deserialize_struct mp sp t = sp t1))
    ∧ (∀ {α : Type} (body : Tok → Except Error (α × Tok)) (t t1 t2 t3 : Tok)
        (p q : Position) (v : α),
        eat_whitespace t = Except.ok (some (p, 123), t1) →
        body t1 = Except.ok (v, t2) →
        eat_whitespace t2 = Except.ok (some (q, 125), t3) →
        deserialize_enum body t = Except.ok (v, t3)) := by
  refine ⟨rfl, rfl, rfl, rfl, ?_, ?_, ?_, ?_, ?_, ?_⟩
  · intro t t1 p c h
    exact ⟨fun hc => by subst hc; simp [unit_variant, h],
      fun hc => by simp [unit_variant, h, hc]⟩
  · intro α seed t t1 p c h
    exact ⟨fun hc => by subst hc; simp [newtype_variant_seed, h],
      fun hc => by simp [newtype_variant_seed, h, hc]⟩
  · intro α seed fuel t t1 p c h
    exact ⟨fun hc => by subst hc; simp [tuple_variant, h],
      fun hc => by simp [tuple_variant, h, hc]⟩
  · intro α mp sp t t1 p c h
    exact ⟨fun hc => by subst hc; simp [struct_variant, h],
      fun hc => by simp [struct_variant, h, hc]⟩
  · intro α mp sp t t1 p c h
    refine ⟨fun hc => by subst hc; simp [deserialize_struct, h], fun hc => ?_⟩
    subst hc
    simp [deserialize_struct, h]
  · intro α body t t1 t2 t3 p q v h1 h2 h3
    simp [deserialize_enum, h1, h2, h3]

/-- Witness for C9 at a concrete state: after an enum tag, `: null` is
accepted by `unit_variant` exactly as `deserialize_unit` on the stream
following the colon. -/
theorem enum_payload_spec_witness :
    unit_variant (tokenize [58, 110, 117, 108, 108]) =
      deserialize_unit ((tokenize [58, 110, 117, 108, 108]).drop 1) := by
  have h := (enum_payload_spec.2.2.2.2.1 (tokenize [58, 110, 117, 108, 108])
    ((tokenize [58, 110, 117, 108, 108]).drop 1) (0, 0) 58 rfl).1 rfl
  exact h

/-- Support for C7: the full `true true` example — parsing a top-level
boolean and then calling `finish` fails with `ExpectedEof` at `(0, 5)`,
the position of the second `true`. -/
theorem from_str_bool_true_true :
    from_str deserialize_bool [116, 114, 117, 101, 32, 116, 114, 117, 101] =
      Except.error (Error.syn (SyntaxError.expectedEof (0, 5) 116)) := rfl

end Jwc
